import Mathlib

/-
Verification of the SecureCargoFlow cargo-tracking contract family.

The repository contains several Solidity variants of one contract:
  * namespace Flow   embeds src/unnamed/part_001 (the full variant with
    encrypted weight/contents fields and the corrected reconnectWallet);
  * namespace Main   embeds src/contracts/SecureCargoFlow.sol (plain events,
    a reconnectWallet whose own comments mark it as broken, emergencyPause);
  * namespace Draft0 embeds the createShipment of src/unnamed/part_000
    (its own comment notes the missing delivery-window upper bound);
  * namespace Draft2 embeds the reconnectWallet of src/unnamed/part_002,
    whose nonReentrant guard sets the locked flag before checking it.

Embedding conventions: a Solidity mapping becomes a total function with the
zero value as default; addresses and timestamps are Nat (0 is the zero
address); euint32/euint8 ciphertext handles are Nat; each external function
becomes a function of its arguments, msg.sender, block.timestamp and the
contract state returning Except String State, where an error carries the
exact require revert string and means the whole call reverts with no state
change (EVM revert semantics); emitted log events are not modelled.
-/

/-- Shipment lifecycle stages, in declared (ordinal) order, as in the
enum ShipmentStatus of every variant. -/
inductive ShipmentStatus where
  | Created
  | InTransit
  | CustomsClearance
  | Arrived
  | Delivered
deriving DecidableEq, Repr

/-- Minimum tracking ID length (MIN_TRACKING_ID_LENGTH = 6). -/
def MIN_TRACKING_ID_LENGTH : Nat := 6

/-- The Shipment struct, identical in every variant. The Solidity field
named exists is rendered existsFlag (exists is a Lean keyword). -/
structure Shipment where
  trackingId : String
  origin : String
  destination : String
  createdAt : Nat
  estimatedDelivery : Nat
  creator : Nat
  existsFlag : Bool
deriving DecidableEq, Repr

/-- Zero value of the Shipment struct: the default a Solidity mapping
yields for an absent key (existsFlag = false). -/
def emptyShipment : Shipment :=
  { trackingId := "", origin := "", destination := "", createdAt := 0,
    estimatedDelivery := 0, creator := 0, existsFlag := false }

/-- Point update of a string-keyed mapping, the effect of a Solidity
mapping assignment m[k] = v. -/
def setKey {α : Type} (f : String → α) (k : String) (v : α) : String → α :=
  fun x => if x = k then v else f x

namespace Flow

/-- CargoEvent struct of part_001, including the encrypted fields
(euint32 encryptedWeight and euint8[] encContentsBytes as handles). -/
structure CargoEvent where
  eventId : Nat
  trackingId : String
  timestamp : Nat
  location : String
  status : ShipmentStatus
  description : String
  encryptedWeight : Nat
  encContentsBytes : List Nat
deriving DecidableEq, Repr

/-- Zero CargoEvent, used only as the default of bounds-checked reads. -/
def emptyCargoEvent : CargoEvent :=
  { eventId := 0, trackingId := "", timestamp := 0, location := "",
    status := ShipmentStatus.Created, description := "",
    encryptedWeight := 0, encContentsBytes := [] }

/-- A holder of a decrypt capability: the contract itself (FHE.allowThis)
or an account (FHE.allow). -/
inductive Grantee where
  | contractSelf
  | acct (a : Nat)
deriving DecidableEq, Repr

/-- Contract storage of part_001, plus the decrypt-capability list the
confidential-computation engine accumulates on behalf of the contract
(appended to by FHE.allowThis / FHE.allow, never removed). -/
structure State where
  owner : Nat
  locked : Bool
  shipments : String → Shipment
  cargoEvents : String → List CargoEvent
  eventCounts : String → Nat
  totalShipments : Nat
  acl : List (Nat × Grantee)

/-- State right after the constructor runs with deployer as msg.sender:
owner set, locked false, all mappings at their zero values. -/
def initState (deployer : Nat) : State :=
  { owner := deployer, locked := false,
    shipments := fun _ => emptyShipment,
    cargoEvents := fun _ => [],
    eventCounts := fun _ => 0,
    totalShipments := 0,
    acl := [] }

/-- Modelled from the spec: FHE.fromExternal, the verify-and-admit import
of the confidential-computation collaborator, is outside this repository.
Admission of a proof-carrying external handle is modelled as returning the
handle unchanged; no theorem below depends on the returned value, only on
how the contract stores, reuses and grants it. -/
def fheImport (ext : Nat) (_proof : Nat) : Nat := ext

/-- The helper _importEncryptedWeight of part_001: import the external
weight handle, then FHE.allowThis and FHE.allow(msg.sender) on it.
Returns the internal handle and the capability grants made, in order. -/
def _importEncryptedWeight (encWeight weightInputProof sender : Nat) :
    Nat × List (Nat × Grantee) :=
  let weight := fheImport encWeight weightInputProof
  (weight, [(weight, Grantee.contractSelf), (weight, Grantee.acct sender)])

/-- The helper _importEncryptedContents of part_001: import each external
byte handle in order, granting allowThis and allow(msg.sender) per byte. -/
def _importEncryptedContents (encContentsBytes : List Nat)
    (inputProof sender : Nat) : List Nat × List (Nat × Grantee) :=
  match encContentsBytes with
  | [] => ([], [])
  | e :: rest =>
    let b := fheImport e inputProof
    let (bs, grants) := _importEncryptedContents rest inputProof sender
    (b :: bs, (b, Grantee.contractSelf) :: (b, Grantee.acct sender) :: grants)

/-- createShipment of part_001 (line 138): require no existing record, id
length at least 6, delivery strictly in the future and at most 365 days
ahead; then store the shipment with creator = msg.sender, createdAt = now,
existsFlag = true, and increment totalShipments. -/
def createShipment (trackingId origin destination : String)
    (estimatedDeliveryTimestamp : Nat) (sender now : Nat) (s : State) :
    Except String State :=
  if (s.shipments trackingId).existsFlag then .error "Shipment already exists"
  else if trackingId.utf8ByteSize < MIN_TRACKING_ID_LENGTH then
    .error "Tracking ID too short"
  else if estimatedDeliveryTimestamp ≤ now then
    .error "Estimated delivery must be in the future"
  else if estimatedDeliveryTimestamp > now + 365 * 86400 then
    .error "Estimated delivery cannot be more than 1 year in the future"
  else
    .ok { s with
      shipments := setKey s.shipments trackingId
        { trackingId := trackingId, origin := origin,
          destination := destination, createdAt := now,
          estimatedDelivery := estimatedDeliveryTimestamp,
          creator := sender, existsFlag := true },
      totalShipments := s.totalShipments + 1 }

/-- The internal append _addCargoEventInternal of part_001 (line 168), used
by status updates: no creator check, eventId taken from eventCounts, and
the encrypted fields carried forward from the FIRST stored event (index 0)
when one exists, else left at their zero values; pushes the event and
increments eventCounts in the same call. It performs no FHE import and no
capability grant, so acl is untouched. -/
def _addCargoEventInternal (trackingId location : String)
    (status : ShipmentStatus) (description : String) (_sender now : Nat)
    (s : State) : Except String State :=
  if (s.shipments trackingId).existsFlag then
    if location.utf8ByteSize > 0 then
      if description.utf8ByteSize > 0 then
        let eventId := s.eventCounts trackingId
        let evs := s.cargoEvents trackingId
        let prevWeight : Nat :=
          match evs with
          | [] => 0
          | e :: _ => e.encryptedWeight
        let prevContents : List Nat :=
          match evs with
          | [] => []
          | e :: _ => e.encContentsBytes
        .ok { s with
          cargoEvents := setKey s.cargoEvents trackingId (evs ++
            [{ eventId := eventId, trackingId := trackingId, timestamp := now,
               location := location, status := status,
               description := description, encryptedWeight := prevWeight,
               encContentsBytes := prevContents }]),
          eventCounts := setKey s.eventCounts trackingId
            (s.eventCounts trackingId + 1) }
      else .error "Description cannot be empty"
    else .error "Location cannot be empty"
  else .error "Shipment does not exist"

/-- The public addCargoEvent of part_001 (line 245): requires existence,
creator identity, and non-empty location and description; assigns
eventId = eventCounts, increments the count, imports the fresh weight and
contents ciphertexts (granting capabilities), and pushes the event. -/
def addCargoEvent (trackingId location : String) (status : ShipmentStatus)
    (description : String) (encWeight weightInputProof : Nat)
    (encContentsBytes : List Nat) (inputProof : Nat) (sender now : Nat)
    (s : State) : Except String State :=
  if (s.shipments trackingId).existsFlag then
    if (s.shipments trackingId).creator = sender then
      if location.utf8ByteSize > 0 then
        if description.utf8ByteSize > 0 then
          let eventId := s.eventCounts trackingId
          let wres := _importEncryptedWeight encWeight weightInputProof sender
          let cres := _importEncryptedContents encContentsBytes inputProof sender
          .ok { s with
            eventCounts := setKey s.eventCounts trackingId
              (s.eventCounts trackingId + 1),
            cargoEvents := setKey s.cargoEvents trackingId
              (s.cargoEvents trackingId ++
                [{ eventId := eventId, trackingId := trackingId,
                   timestamp := now, location := location, status := status,
                   description := description, encryptedWeight := wres.1,
                   encContentsBytes := cres.1 }]),
            acl := s.acl ++ wres.2 ++ cres.2 }
        else .error "Description cannot be empty"
      else .error "Location cannot be empty"
    else .error "Only shipment creator can add events"
  else .error "Shipment does not exist"

/-- getCurrentStatus of part_001: Created while the event list is empty,
otherwise the status of the most recently appended event. -/
def getCurrentStatus (trackingId : String) (s : State) :
    Except String ShipmentStatus :=
  if (s.shipments trackingId).existsFlag then
    match (s.cargoEvents trackingId).getLast? with
    | none => .ok ShipmentStatus.Created
    | some e => .ok e.status
  else .error "Shipment does not exist"

/-- The helper _statusToString of part_001. -/
def _statusToString : ShipmentStatus → String
  | ShipmentStatus.Created => "Created"
  | ShipmentStatus.InTransit => "InTransit"
  | ShipmentStatus.CustomsClearance => "CustomsClearance"
  | ShipmentStatus.Arrived => "Arrived"
  | ShipmentStatus.Delivered => "Delivered"

/-- The transition predicate _isValidStatusTransition of part_001
(line 329): the four if-clauses of the source, everything else false. -/
def _isValidStatusTransition : ShipmentStatus → ShipmentStatus → Bool
  | ShipmentStatus.Created, ShipmentStatus.InTransit => true
  | ShipmentStatus.InTransit, ShipmentStatus.CustomsClearance => true
  | ShipmentStatus.CustomsClearance, ShipmentStatus.Arrived => true
  | ShipmentStatus.Arrived, ShipmentStatus.Delivered => true
  | _, _ => false

/-- updateShipmentStatus of part_001 (line 286): require existence and
creator, read the current status, reject a repeated status, an invalid
transition, and a call within one hour (3600 s) of createdAt, in that
order; on success delegate to the internal append with location
"Status Update" and a synthesized description. -/
def updateShipmentStatus (trackingId : String) (newStatus : ShipmentStatus)
    (sender now : Nat) (s : State) : Except String State :=
  if (s.shipments trackingId).existsFlag then
    if (s.shipments trackingId).creator = sender then
      match getCurrentStatus trackingId s with
      | .error m => .error m
      | .ok currentStatus =>
        if currentStatus ≠ newStatus then
          if _isValidStatusTransition currentStatus newStatus then
            if now ≥ (s.shipments trackingId).createdAt + 3600 then
              _addCargoEventInternal trackingId "Status Update" newStatus
                ("Status changed to " ++ _statusToString newStatus) sender now s
            else .error "Too early for status change"
          else .error "Invalid status transition"
        else .error "Status already set"
    else .error "Only shipment creator can update status"
  else .error "Shipment does not exist"

/-- reconnectWallet of part_001 (line 79), behind the correct
check-then-set nonReentrant guard (the guard clears the flag on exit, so
the resulting locked flag equals the incoming one on every path): require
existence, current creator as caller, a nonzero new wallet different from
the caller; then set creator to the new wallet. -/
def reconnectWallet (trackingId : String) (newWallet sender : Nat)
    (s : State) : Except String State :=
  if s.locked then .error "Reentrant call"
  else if (s.shipments trackingId).existsFlag then
    if (s.shipments trackingId).creator = sender then
      if newWallet ≠ 0 then
        if newWallet ≠ sender then
          let updated := { s.shipments trackingId with creator := newWallet }
          .ok { s with shipments := setKey s.shipments trackingId updated }
        else .error "New wallet must be different from current"
      else .error "New wallet cannot be zero address"
    else .error "Only current creator can reconnect wallet"
  else .error "Shipment does not exist"

/-- emergencyPause of part_001 (line 110): no access control, no other
check; sets the locked flag. -/
def emergencyPause (_sender : Nat) (s : State) : Except String State :=
  .ok { s with locked := true }

/-- getEncryptedWeight of part_001 (line 440): existence and bounds
checks, then the stored handle of the indexed event. -/
def getEncryptedWeight (trackingId : String) (eventIndex : Nat) (s : State) :
    Except String Nat :=
  if (s.shipments trackingId).existsFlag then
    if eventIndex < (s.cargoEvents trackingId).length then
      .ok ((s.cargoEvents trackingId).getD eventIndex
        emptyCargoEvent).encryptedWeight
    else .error "Event does not exist"
  else .error "Shipment does not exist"

/-- States of the part_001 contract reachable from a fresh deployment by
any sequence of successful external state-mutating calls, with arbitrary
callers, arguments and block times. -/
inductive Reachable : State → Prop where
  | init (deployer : Nat) : Reachable (initState deployer)
  | create (trackingId origin destination : String)
      (estimatedDeliveryTimestamp sender now : Nat) (s s' : State) :
      Reachable s →
      createShipment trackingId origin destination estimatedDeliveryTimestamp
        sender now s = .ok s' → Reachable s'
  | addEvent (trackingId location : String) (status : ShipmentStatus)
      (description : String) (encWeight weightInputProof : Nat)
      (encContentsBytes : List Nat) (inputProof sender now : Nat)
      (s s' : State) :
      Reachable s →
      addCargoEvent trackingId location status description encWeight
        weightInputProof encContentsBytes inputProof sender now s = .ok s' →
      Reachable s'
  | updateStatus (trackingId : String) (newStatus : ShipmentStatus)
      (sender now : Nat) (s s' : State) :
      Reachable s →
      updateShipmentStatus trackingId newStatus sender now s = .ok s' →
      Reachable s'
  | reconnect (trackingId : String) (newWallet sender : Nat) (s s' : State) :
      Reachable s →
      reconnectWallet trackingId newWallet sender s = .ok s' → Reachable s'
  | pause (sender : Nat) (s s' : State) :
      Reachable s → emergencyPause sender s = .ok s' → Reachable s'

/-- Event-log bookkeeping invariant: for every tracking id the stored
count equals the list length, and the eventId fields read 0, 1, 2, ... in
list order (their list is exactly List.range of the length). -/
def Inv (s : State) : Prop :=
  ∀ trackingId : String,
    s.eventCounts trackingId = (s.cargoEvents trackingId).length ∧
    (s.cargoEvents trackingId).map CargoEvent.eventId =
      List.range (s.cargoEvents trackingId).length

end Flow

namespace Main

/-- CargoEvent struct of src/contracts/SecureCargoFlow.sol: no encrypted
fields in this variant. -/
structure CargoEvent where
  eventId : Nat
  trackingId : String
  timestamp : Nat
  location : String
  status : ShipmentStatus
  description : String
deriving DecidableEq, Repr

/-- Contract storage of src/contracts/SecureCargoFlow.sol. -/
structure State where
  owner : Nat
  locked : Bool
  shipments : String → Shipment
  cargoEvents : String → List CargoEvent
  eventCounts : String → Nat
  totalShipments : Nat

/-- State right after the constructor runs with deployer as msg.sender. -/
def initState (deployer : Nat) : State :=
  { owner := deployer, locked := false,
    shipments := fun _ => emptyShipment,
    cargoEvents := fun _ => [],
    eventCounts := fun _ => 0,
    totalShipments := 0 }

/-- createShipment of src/contracts/SecureCargoFlow.sol (line 146),
textually identical to the part_001 variant. -/
def createShipment (trackingId origin destination : String)
    (estimatedDeliveryTimestamp : Nat) (sender now : Nat) (s : State) :
    Except String State :=
  if (s.shipments trackingId).existsFlag then .error "Shipment already exists"
  else if trackingId.utf8ByteSize < MIN_TRACKING_ID_LENGTH then
    .error "Tracking ID too short"
  else if estimatedDeliveryTimestamp ≤ now then
    .error "Estimated delivery must be in the future"
  else if estimatedDeliveryTimestamp > now + 365 * 86400 then
    .error "Estimated delivery cannot be more than 1 year in the future"
  else
    .ok { s with
      shipments := setKey s.shipments trackingId
        { trackingId := trackingId, origin := origin,
          destination := destination, createdAt := now,
          estimatedDelivery := estimatedDeliveryTimestamp,
          creator := sender, existsFlag := true },
      totalShipments := s.totalShipments + 1 }

/-- addCargoEvent of src/contracts/SecureCargoFlow.sol (line 176): plain
events, creator check, non-empty location and description, eventId from
eventCounts, push then increment the count in the same call. -/
def addCargoEvent (trackingId location : String) (status : ShipmentStatus)
    (description : String) (sender now : Nat) (s : State) :
    Except String State :=
  if (s.shipments trackingId).existsFlag then
    if (s.shipments trackingId).creator = sender then
      if location.utf8ByteSize > 0 then
        if description.utf8ByteSize > 0 then
          let eventId := s.eventCounts trackingId
          .ok { s with
            cargoEvents := setKey s.cargoEvents trackingId
              (s.cargoEvents trackingId ++
                [{ eventId := eventId, trackingId := trackingId,
                   timestamp := now, location := location, status := status,
                   description := description }]),
            eventCounts := setKey s.eventCounts trackingId
              (s.eventCounts trackingId + 1) }
        else .error "Description cannot be empty"
      else .error "Location cannot be empty"
    else .error "Only shipment creator can add events"
  else .error "Shipment does not exist"

/-- getCurrentStatus of src/contracts/SecureCargoFlow.sol (line 225). -/
def getCurrentStatus (trackingId : String) (s : State) :
    Except String ShipmentStatus :=
  if (s.shipments trackingId).existsFlag then
    match (s.cargoEvents trackingId).getLast? with
    | none => .ok ShipmentStatus.Created
    | some e => .ok e.status
  else .error "Shipment does not exist"

/-- The helper _statusToString of src/contracts/SecureCargoFlow.sol. -/
def _statusToString : ShipmentStatus → String
  | ShipmentStatus.Created => "Created"
  | ShipmentStatus.InTransit => "InTransit"
  | ShipmentStatus.CustomsClearance => "CustomsClearance"
  | ShipmentStatus.Arrived => "Arrived"
  | ShipmentStatus.Delivered => "Delivered"

/-- _isValidStatusTransition of src/contracts/SecureCargoFlow.sol
(line 249), identical to the part_001 variant. -/
def _isValidStatusTransition : ShipmentStatus → ShipmentStatus → Bool
  | ShipmentStatus.Created, ShipmentStatus.InTransit => true
  | ShipmentStatus.InTransit, ShipmentStatus.CustomsClearance => true
  | ShipmentStatus.CustomsClearance, ShipmentStatus.Arrived => true
  | ShipmentStatus.Arrived, ShipmentStatus.Delivered => true
  | _, _ => false

/-- updateShipmentStatus of src/contracts/SecureCargoFlow.sol (line 206):
same checks and order as the part_001 variant, delegating to the public
addCargoEvent (an internal Solidity call, so msg.sender is unchanged). -/
def updateShipmentStatus (trackingId : String) (newStatus : ShipmentStatus)
    (sender now : Nat) (s : State) : Except String State :=
  if (s.shipments trackingId).existsFlag then
    if (s.shipments trackingId).creator = sender then
      match getCurrentStatus trackingId s with
      | .error m => .error m
      | .ok currentStatus =>
        if currentStatus ≠ newStatus then
          if _isValidStatusTransition currentStatus newStatus then
            if now ≥ (s.shipments trackingId).createdAt + 3600 then
              addCargoEvent trackingId "Status Update" newStatus
                ("Status changed to " ++ _statusToString newStatus) sender now s
            else .error "Too early for status change"
          else .error "Invalid status transition"
        else .error "Status already set"
    else .error "Only shipment creator can update status"
  else .error "Shipment does not exist"

/-- reconnectWallet of src/contracts/SecureCargoFlow.sol (line 78), behind
the correct check-then-set nonReentrant guard. The body is the variant the
source itself marks as broken: it requires newWallet == msg.sender instead
of a creator check, and then sets creator to the zero address. -/
def reconnectWallet (trackingId : String) (newWallet sender : Nat)
    (s : State) : Except String State :=
  if s.locked then .error "Reentrant call"
  else if (s.shipments trackingId).existsFlag then
    if newWallet = sender then
      let updated := { s.shipments trackingId with creator := 0 }
      .ok { s with shipments := setKey s.shipments trackingId updated }
    else .error "Invalid wallet"
  else .error "Shipment does not exist"

/-- emergencyPause of src/contracts/SecureCargoFlow.sol (line 118): no
access control and no other check; sets the locked flag and nothing else.
No function of the contract ever resets it. -/
def emergencyPause (_sender : Nat) (s : State) : Except String State :=
  .ok { s with locked := true }

/-- getEventCount of src/contracts/SecureCargoFlow.sol (line 319). -/
def getEventCount (trackingId : String) (s : State) : Except String Nat :=
  if (s.shipments trackingId).existsFlag then .ok (s.eventCounts trackingId)
  else .error "Shipment does not exist"

/-- getShipment of src/contracts/SecureCargoFlow.sol (line 311). -/
def getShipment (trackingId : String) (s : State) : Except String Shipment :=
  if (s.shipments trackingId).existsFlag then .ok (s.shipments trackingId)
  else .error "Shipment does not exist"

/-- One state-mutating external call of src/contracts/SecureCargoFlow.sol
succeeding, for arbitrary caller, arguments and block time. -/
inductive Step : State → State → Prop where
  | create (trackingId origin destination : String)
      (estimatedDeliveryTimestamp sender now : Nat) (s s' : State) :
      createShipment trackingId origin destination estimatedDeliveryTimestamp
        sender now s = .ok s' → Step s s'
  | addEvent (trackingId location : String) (status : ShipmentStatus)
      (description : String) (sender now : Nat) (s s' : State) :
      addCargoEvent trackingId location status description sender now s =
        .ok s' → Step s s'
  | updateStatus (trackingId : String) (newStatus : ShipmentStatus)
      (sender now : Nat) (s s' : State) :
      updateShipmentStatus trackingId newStatus sender now s = .ok s' →
      Step s s'
  | reconnect (trackingId : String) (newWallet sender : Nat) (s s' : State) :
      reconnectWallet trackingId newWallet sender s = .ok s' → Step s s'
  | pause (sender : Nat) (s s' : State) :
      emergencyPause sender s = .ok s' → Step s s'

end Main

namespace Draft0

/-- Contract storage of src/unnamed/part_000: same declarations as the
main contract except that this draft has no locked flag; its CargoEvent
struct is identical to the main one, so that type is reused. -/
structure State where
  owner : Nat
  shipments : String → Shipment
  cargoEvents : String → List Main.CargoEvent
  eventCounts : String → Nat
  totalShipments : Nat

/-- createShipment of src/unnamed/part_000 (line 82): this draft checks
existence, id length and that the delivery lies in the future, but its own
comment records that the one-year upper bound on estimatedDelivery is
missing. -/
def createShipment (trackingId origin destination : String)
    (estimatedDeliveryTimestamp : Nat) (sender now : Nat) (s : State) :
    Except String State :=
  if (s.shipments trackingId).existsFlag then .error "Shipment already exists"
  else if trackingId.utf8ByteSize < MIN_TRACKING_ID_LENGTH then
    .error "Tracking ID too short"
  else if estimatedDeliveryTimestamp ≤ now then
    .error "Estimated delivery must be in the future"
  else
    .ok { s with
      shipments := setKey s.shipments trackingId
        { trackingId := trackingId, origin := origin,
          destination := destination, createdAt := now,
          estimatedDelivery := estimatedDeliveryTimestamp,
          creator := sender, existsFlag := true },
      totalShipments := s.totalShipments + 1 }

/-- A fresh deployment of the part_000 draft. -/
def initState (deployer : Nat) : State :=
  { owner := deployer,
    shipments := fun _ => emptyShipment,
    cargoEvents := fun _ => [],
    eventCounts := fun _ => 0,
    totalShipments := 0 }

end Draft0

namespace Draft2

/-- reconnectWallet of src/unnamed/part_002 (line 78), behind the
nonReentrant guard of that file (line 133), which sets the locked flag
BEFORE checking it: the guard reads back the flag it just wrote, so the
require fails on every call and the body below it is dead code. The state
declarations of part_002 match the main contract, so Main.State is
reused. A require failure reverts the transaction, so the flag write does
not survive either. -/
def reconnectWallet (trackingId : String) (newWallet sender : Nat)
    (s : Main.State) : Except String Main.State :=
  let lockedAfterSet := true
  if lockedAfterSet then .error "Reentrant call"
  else if (s.shipments trackingId).existsFlag then
    if newWallet = sender then
      let updated := { s.shipments trackingId with creator := 0 }
      .ok { s with shipments := setKey s.shipments trackingId updated }
    else .error "Invalid wallet"
  else .error "Shipment does not exist"

end Draft2

/-- Fresh part_001 deployment by account 9. -/
def demoFlow0 : Flow.State := Flow.initState 9

/-- demoFlow0 after account 1 creates shipment CARGO-001 at time 0 with
delivery estimate 604800 (7 days). -/
def demoFlow1 : Flow.State :=
  match Flow.createShipment "CARGO-001" "Shanghai" "LA" 604800 1 0 demoFlow0 with
  | .ok t => t
  | .error _ => demoFlow0

/-- demoFlow1 after the creator appends one event with fresh weight and
contents ciphertexts at time 10. -/
def demoFlow2 : Flow.State :=
  match Flow.addCargoEvent "CARGO-001" "Shanghai Port" ShipmentStatus.Created
      "Loaded" 2500000 11 [101, 102] 12 1 10 demoFlow1 with
  | .ok t => t
  | .error _ => demoFlow0

/-- demoFlow2 after an internal (status-update) append at time 5000,
carrying the encrypted fields forward. -/
def demoFlow3 : Flow.State :=
  match Flow._addCargoEventInternal "CARGO-001" "Status Update"
      ShipmentStatus.InTransit "Status changed to InTransit" 1 5000 demoFlow2 with
  | .ok t => t
  | .error _ => demoFlow0

/-- Fresh main-contract deployment by account 9. -/
def demoMain0 : Main.State := Main.initState 9

/-- demoMain0 after account 1 creates shipment CARGO-001 at time 0 with
delivery estimate 604800. -/
def demoMain1 : Main.State :=
  match Main.createShipment "CARGO-001" "Shanghai" "LA" 604800 1 0 demoMain0 with
  | .ok t => t
  | .error _ => demoMain0

/-- demoMain1 with the locked flag raised by an emergencyPause call. -/
def demoMain2 : Main.State :=
  match Main.emergencyPause 5 demoMain1 with
  | .ok t => t
  | .error _ => demoMain0

/-- demoMain2 after a further createShipment, showing creation still
works while the contract is locked. -/
def demoMain3 : Main.State :=
  match Main.createShipment "CARGO-003" "Busan" "Seattle" 604800 1 0
      demoMain2 with
  | .ok t => t
  | .error _ => demoMain0

/-- Appending one element and reading at the old length returns it. -/
theorem getD_append_len {α : Type} (l : List α) (x d : α) :
    (l ++ [x]).getD l.length d = x := by
  induction l with
  | nil => rfl
  | cons a t ih => simp

/-- createShipment of part_001 preserves the event-log invariant. -/
theorem flow_create_inv {trackingId origin destination : String}
    {e sender now : Nat} {s s' : Flow.State} (h : Flow.Inv s)
    (hc : Flow.createShipment trackingId origin destination e sender now s =
      .ok s') : Flow.Inv s' := by
  simp only [Flow.createShipment] at hc
  split at hc
  · simp at hc
  · split at hc
    · simp at hc
    · split at hc
      · simp at hc
      · split at hc
        · simp at hc
        · simp only [Except.ok.injEq] at hc
          subst hc
          exact h

/-- The internal append of part_001 preserves the event-log invariant. -/
theorem flow_internal_inv {trackingId location : String}
    {status : ShipmentStatus} {description : String} {sender now : Nat}
    {s s' : Flow.State} (h : Flow.Inv s)
    (hc : Flow._addCargoEventInternal trackingId location status description
      sender now s = .ok s') : Flow.Inv s' := by
  simp only [Flow._addCargoEventInternal] at hc
  split at hc
  · split at hc
    · split at hc
      · simp only [Except.ok.injEq] at hc
        subst hc
        intro id
        rcases h id with ⟨h1, h2⟩
        by_cases hid : id = trackingId
        · subst hid
          refine ⟨?_, ?_⟩
          · simp [setKey, h1]
          · simp [setKey, h1, h2, List.range_succ]
        · simp only [setKey]
          simp [hid, h1, h2]
      · simp at hc
    · simp at hc
  · simp at hc

/-- The public addCargoEvent of part_001 preserves the invariant. -/
theorem flow_add_inv {trackingId location : String}
    {status : ShipmentStatus} {description : String}
    {encWeight weightInputProof : Nat} {encContentsBytes : List Nat}
    {inputProof sender now : Nat} {s s' : Flow.State} (h : Flow.Inv s)
    (hc : Flow.addCargoEvent trackingId location status description encWeight
      weightInputProof encContentsBytes inputProof sender now s = .ok s') :
    Flow.Inv s' := by
  simp only [Flow.addCargoEvent] at hc
  split at hc
  · split at hc
    · split at hc
      · split at hc
        · simp only [Except.ok.injEq] at hc
          subst hc
          intro id
          rcases h id with ⟨h1, h2⟩
          by_cases hid : id = trackingId
          · subst hid
            refine ⟨?_, ?_⟩
            · simp [setKey, h1]
            · simp [setKey, h1, h2, List.range_succ]
          · simp only [setKey]
            simp [hid, h1, h2]
        · simp at hc
      · simp at hc
    · simp at hc
  · simp at hc

/-- updateShipmentStatus of part_001 preserves the invariant (it only
appends through the internal append). -/
theorem flow_update_inv {trackingId : String} {newStatus : ShipmentStatus}
    {sender now : Nat} {s s' : Flow.State} (h : Flow.Inv s)
    (hc : Flow.updateShipmentStatus trackingId newStatus sender now s =
      .ok s') : Flow.Inv s' := by
  simp only [Flow.updateShipmentStatus] at hc
  split at hc
  · split at hc
    · split at hc
      · simp at hc
      · split at hc
        · split at hc
          · split at hc
            · exact flow_internal_inv h hc
            · simp at hc
          · simp at hc
        · simp at hc
    · simp at hc
  · simp at hc

/-- reconnectWallet of part_001 does not touch the event log. -/
theorem flow_reconnect_inv {trackingId : String} {newWallet sender : Nat}
    {s s' : Flow.State} (h : Flow.Inv s)
    (hc : Flow.reconnectWallet trackingId newWallet sender s = .ok s') :
    Flow.Inv s' := by
  simp only [Flow.reconnectWallet] at hc
  split at hc
  · simp at hc
  · split at hc
    · split at hc
      · split at hc
        · split at hc
          · simp only [Except.ok.injEq] at hc
            subst hc
            exact h
          · simp at hc
        · simp at hc
      · simp at hc
    · simp at hc

/-- emergencyPause of part_001 does not touch the event log. -/
theorem flow_pause_inv {sender : Nat} {s s' : Flow.State} (h : Flow.Inv s)
    (hc : Flow.emergencyPause sender s = .ok s') : Flow.Inv s' := by
  simp only [Flow.emergencyPause, Except.ok.injEq] at hc
  subst hc
  exact h

/-- Every reachable state of part_001 satisfies the event-log invariant. -/
theorem flow_reachable_inv {s : Flow.State} (h : Flow.Reachable s) :
    Flow.Inv s := by
  induction h with
  | init d => exact fun id => ⟨rfl, rfl⟩
  | create t o d e sn nw s s' hr hc ih => exact flow_create_inv ih hc
  | addEvent t l st de ew wp ec ip sn nw s s' hr hc ih =>
    exact flow_add_inv ih hc
  | updateStatus t ns sn nw s s' hr hc ih => exact flow_update_inv ih hc
  | reconnect t w sn s s' hr hc ih => exact flow_reconnect_inv ih hc
  | pause sn s s' hr hc ih => exact flow_pause_inv ih hc

/-- C1. For every tracking identifier, createShipment succeeds at most
once: whenever the existsFlag of the stored record is already set (as it
is after every successful creation), a later createShipment call with the
same trackingId fails with the revert string "Shipment already exists" of
the AlreadyExists check, for both the part_001 and the main-contract
variant; a revert leaves all state unchanged by the embedding of EVM
semantics. The last two conjuncts close the loop: a successful creation
always sets the existsFlag of that trackingId. -/
theorem C1_create_at_most_once :
    (∀ (trackingId origin destination : String)
       (e sender now : Nat) (s : Flow.State),
       (s.shipments trackingId).existsFlag = true →
       Flow.createShipment trackingId origin destination e sender now s =
         .error "Shipment already exists") ∧
    (∀ (trackingId origin destination : String)
       (e sender now : Nat) (s : Main.State),
       (s.shipments trackingId).existsFlag = true →
       Main.createShipment trackingId origin destination e sender now s =
         .error "Shipment already exists") ∧
    (∀ (trackingId origin destination : String)
       (e sender now : Nat) (s s' : Flow.State),
       Flow.createShipment trackingId origin destination e sender now s =
         .ok s' → (s'.shipments trackingId).existsFlag = true) ∧
    (∀ (trackingId origin destination : String)
       (e sender now : Nat) (s s' : Main.State),
       Main.createShipment trackingId origin destination e sender now s =
         .ok s' → (s'.shipments trackingId).existsFlag = true) := by
  refine ⟨?_, ?_, ?_, ?_⟩
  · intro t o d e sn nw s h
    simp [Flow.createShipment, h]
  · intro t o d e sn nw s h
    simp [Main.createShipment, h]
  · intro t o d e sn nw s s' hc
    simp only [Flow.createShipment] at hc
    split at hc
    · simp at hc
    · split at hc
      · simp at hc
      · split at hc
        · simp at hc
        · split at hc
          · simp at hc
          · simp only [Except.ok.injEq] at hc
            subst hc
            simp [setKey]
  · intro t o d e sn nw s s' hc
    simp only [Main.createShipment] at hc
    split at hc
    · simp at hc
    · split at hc
      · simp at hc
      · split at hc
        · simp at hc
        · split at hc
          · simp at hc
          · simp only [Except.ok.injEq] at hc
            subst hc
            simp [setKey]

/-- Witness for C1: CARGO-001 already exists in demoFlow1 and demoMain1,
so a second creation fails with the AlreadyExists revert string. -/
theorem C1_create_at_most_once_witness :
    Flow.createShipment "CARGO-001" "Tokyo" "Oakland" 999999 2 5 demoFlow1 =
      .error "Shipment already exists" ∧
    Main.createShipment "CARGO-001" "Tokyo" "Oakland" 999999 2 5 demoMain1 =
      .error "Shipment already exists" :=
  ⟨C1_create_at_most_once.1 "CARGO-001" "Tokyo" "Oakland" 999999 2 5
      demoFlow1 (by decide),
   C1_create_at_most_once.2.1 "CARGO-001" "Tokyo" "Oakland" 999999 2 5
      demoMain1 (by decide)⟩

/-- C2. In every reachable state of the part_001 contract,
eventCounts[trackingId] equals the length of cargoEvents[trackingId] and
the stored eventId fields read exactly 0, 1, 2, ... in list order; and
each successful append (public addCargoEvent or the internal status-update
append) increments the count and the list length by one in that same
call. -/
theorem C2_event_log_invariant :
    (∀ s : Flow.State, Flow.Reachable s → Flow.Inv s) ∧
    (∀ (trackingId location : String) (status : ShipmentStatus)
       (description : String) (encWeight weightInputProof : Nat)
       (encContentsBytes : List Nat) (inputProof sender now : Nat)
       (s s' : Flow.State),
       Flow.addCargoEvent trackingId location status description encWeight
         weightInputProof encContentsBytes inputProof sender now s = .ok s' →
       s'.eventCounts trackingId = s.eventCounts trackingId + 1 ∧
       (s'.cargoEvents trackingId).length =
         (s.cargoEvents trackingId).length + 1) ∧
    (∀ (trackingId location : String) (status : ShipmentStatus)
       (description : String) (sender now : Nat) (s s' : Flow.State),
       Flow._addCargoEventInternal trackingId location status description
         sender now s = .ok s' →
       s'.eventCounts trackingId = s.eventCounts trackingId + 1 ∧
       (s'.cargoEvents trackingId).length =
         (s.cargoEvents trackingId).length + 1) := by
  refine ⟨fun s h => flow_reachable_inv h, ?_, ?_⟩
  · intro t l st de ew wp ec ip sn nw s s' hc
    simp only [Flow.addCargoEvent] at hc
    split at hc
    · split at hc
      · split at hc
        · split at hc
          · simp only [Except.ok.injEq] at hc
            subst hc
            constructor <;> simp [setKey]
          · simp at hc
        · simp at hc
      · simp at hc
    · simp at hc
  · intro t l st de sn nw s s' hc
    simp only [Flow._addCargoEventInternal] at hc
    split at hc
    · split at hc
      · split at hc
        · simp only [Except.ok.injEq] at hc
          subst hc
          constructor <;> simp [setKey]
        · simp at hc
      · simp at hc
    · simp at hc

/-- Witness for C2: demoFlow3 (created, one public append, one internal
append) is reachable and satisfies the invariant; the internal append that
produced it bumped both count and length from 1 to 2. -/
theorem C2_event_log_invariant_witness :
    Flow.Inv demoFlow3 ∧
    demoFlow3.eventCounts "CARGO-001" = 2 ∧
    (demoFlow3.cargoEvents "CARGO-001").length = 2 :=
  ⟨C2_event_log_invariant.1 demoFlow3
      (Flow.Reachable.updateStatus "CARGO-001" ShipmentStatus.InTransit 1 5000
        demoFlow2 demoFlow3
        (Flow.Reachable.addEvent "CARGO-001" "Shanghai Port"
          ShipmentStatus.Created "Loaded" 2500000 11 [101, 102] 12 1 10
          demoFlow1 demoFlow2
          (Flow.Reachable.create "CARGO-001" "Shanghai" "LA" 604800 1 0
            demoFlow0 demoFlow1 (Flow.Reachable.init 9) (by rfl))
          (by rfl))
        (by rfl)),
   by decide, by decide⟩

/-- C3. The transition predicate accepts exactly the four adjacent ordered
pairs (and the main-contract copy agrees with it); and on an existing
shipment whose current status is a, a creator call of updateShipmentStatus
with newStatus b outside the accepted pairs fails with "Status already
set" (NoOp) when a = b and "Invalid status transition" otherwise. -/
theorem C3_status_transition_exactness :
    (∀ a b : ShipmentStatus,
       (Flow._isValidStatusTransition a b = true ↔
         ((a = ShipmentStatus.Created ∧ b = ShipmentStatus.InTransit) ∨
          (a = ShipmentStatus.InTransit ∧
            b = ShipmentStatus.CustomsClearance) ∨
          (a = ShipmentStatus.CustomsClearance ∧
            b = ShipmentStatus.Arrived) ∨
          (a = ShipmentStatus.Arrived ∧ b = ShipmentStatus.Delivered))) ∧
       Main._isValidStatusTransition a b = Flow._isValidStatusTransition a b) ∧
    (∀ (trackingId : String) (a b : ShipmentStatus) (sender now : Nat)
       (s : Flow.State),
       (s.shipments trackingId).existsFlag = true →
       (s.shipments trackingId).creator = sender →
       Flow.getCurrentStatus trackingId s = .ok a →
       Flow._isValidStatusTransition a b = false →
       Flow.updateShipmentStatus trackingId b sender now s =
         .error (if a = b then "Status already set"
                 else "Invalid status transition")) := by
  refine ⟨?_, ?_⟩
  · intro a b
    refine ⟨?_, ?_⟩
    · cases a <;> cases b <;> simp [Flow._isValidStatusTransition]
    · cases a <;> cases b <;> rfl
  · intro t a b sn nw s h1 h2 h3 h4
    by_cases hab : a = b
    · subst hab
      simp [Flow.updateShipmentStatus, h1, h2, h3]
    · simp [Flow.updateShipmentStatus, h1, h2, h3, h4, hab]

/-- Witness for C3: skipping from Created straight to Arrived on
demoFlow1, called by the creator, is rejected as an invalid transition. -/
theorem C3_status_transition_exactness_witness :
    Flow.updateShipmentStatus "CARGO-001" ShipmentStatus.Arrived 1 99999
      demoFlow1 = .error "Invalid status transition" :=
  C3_status_transition_exactness.2 "CARGO-001" ShipmentStatus.Created
    ShipmentStatus.Arrived 1 99999 demoFlow1 (by decide) (by decide)
    (by rfl) (by decide)

/-- Distinct revert strings give distinct Except results. -/
theorem error_ne_of_msg_ne {α : Type} {a b : String} (h : a ≠ b) :
    (Except.error a : Except String α) ≠ Except.error b :=
  fun hc => h (Except.error.inj hc)

/-- The internal append of part_001 never produces the TooSoon revert. -/
theorem flow_internal_no_too_soon (trackingId location : String)
    (status : ShipmentStatus) (description : String) (sender now : Nat)
    (s : Flow.State) :
    Flow._addCargoEventInternal trackingId location status description
      sender now s ≠ .error "Too early for status change" := by
  simp only [Flow._addCargoEventInternal]
  split
  · split
    · split
      · simp
      · intro hc
        exact absurd hc (error_ne_of_msg_ne (by decide))
    · intro hc
      exact absurd hc (error_ne_of_msg_ne (by decide))
  · intro hc
    exact absurd hc (error_ne_of_msg_ne (by decide))

/-- The main-contract addCargoEvent never produces the TooSoon revert. -/
theorem main_add_no_too_soon (trackingId location : String)
    (status : ShipmentStatus) (description : String) (sender now : Nat)
    (s : Main.State) :
    Main.addCargoEvent trackingId location status description sender now s ≠
      .error "Too early for status change" := by
  simp only [Main.addCargoEvent]
  split
  · split
    · split
      · split
        · simp
        · intro hc
          exact absurd hc (error_ne_of_msg_ne (by decide))
      · intro hc
        exact absurd hc (error_ne_of_msg_ne (by decide))
    · intro hc
      exact absurd hc (error_ne_of_msg_ne (by decide))
  · intro hc
    exact absurd hc (error_ne_of_msg_ne (by decide))

/-- The only revert of getCurrentStatus in part_001 is the missing
shipment. -/
theorem flow_getCurrentStatus_err {trackingId : String} {s : Flow.State}
    {m : String} (h : Flow.getCurrentStatus trackingId s = .error m) :
    m = "Shipment does not exist" := by
  simp only [Flow.getCurrentStatus] at h
  split at h
  · split at h <;> simp at h
  · simp only [Except.error.injEq] at h
    exact h.symm

/-- The only revert of getCurrentStatus in the main contract is the
missing shipment. -/
theorem main_getCurrentStatus_err {trackingId : String} {s : Main.State}
    {m : String} (h : Main.getCurrentStatus trackingId s = .error m) :
    m = "Shipment does not exist" := by
  simp only [Main.getCurrentStatus] at h
  split at h
  · split at h <;> simp at h
  · simp only [Except.error.injEq] at h
    exact h.symm

/-- A TooSoon revert of updateShipmentStatus in part_001 can only happen
before createdAt + 3600. -/
theorem flow_update_too_soon_time {trackingId : String}
    {newStatus : ShipmentStatus} {sender now : Nat} {s : Flow.State}
    (hc : Flow.updateShipmentStatus trackingId newStatus sender now s =
      .error "Too early for status change") :
    now < (s.shipments trackingId).createdAt + 3600 := by
  simp only [Flow.updateShipmentStatus] at hc
  split at hc
  · split at hc
    · split at hc
      · have hm := flow_getCurrentStatus_err (by assumption)
        simp only [Except.error.injEq] at hc
        subst hm
        exact absurd hc (by decide)
      · split at hc
        · split at hc
          · split at hc
            · exact absurd hc (flow_internal_no_too_soon _ _ _ _ _ _ _)
            · omega
          · exact absurd hc (error_ne_of_msg_ne (by decide))
        · exact absurd hc (error_ne_of_msg_ne (by decide))
    · exact absurd hc (error_ne_of_msg_ne (by decide))
  · exact absurd hc (error_ne_of_msg_ne (by decide))

/-- A TooSoon revert of updateShipmentStatus in the main contract can only
happen before createdAt + 3600. -/
theorem main_update_too_soon_time {trackingId : String}
    {newStatus : ShipmentStatus} {sender now : Nat} {s : Main.State}
    (hc : Main.updateShipmentStatus trackingId newStatus sender now s =
      .error "Too early for status change") :
    now < (s.shipments trackingId).createdAt + 3600 := by
  simp only [Main.updateShipmentStatus] at hc
  split at hc
  · split at hc
    · split at hc
      · have hm := main_getCurrentStatus_err (by assumption)
        simp only [Except.error.injEq] at hc
        subst hm
        exact absurd hc (by decide)
      · split at hc
        · split at hc
          · split at hc
            · exact absurd hc (main_add_no_too_soon _ _ _ _ _ _ _)
            · omega
          · exact absurd hc (error_ne_of_msg_ne (by decide))
        · exact absurd hc (error_ne_of_msg_ne (by decide))
    · exact absurd hc (error_ne_of_msg_ne (by decide))
  · exact absurd hc (error_ne_of_msg_ne (by decide))

/-- C7. In both the part_001 and the main contract, updateShipmentStatus
fails with "Too early for status change" whenever the block time is
earlier than createdAt + 3600 (and the checks ahead of it pass); and once
createdAt + 3600 has been reached, no call of updateShipmentStatus can
ever fail with that revert again, whatever happened since — the dwell time
is measured from shipment creation, not from the previous event. -/
theorem C7_dwell_time_from_creation :
    (∀ (trackingId : String) (a b : ShipmentStatus) (sender now : Nat)
       (s : Flow.State),
       (s.shipments trackingId).existsFlag = true →
       (s.shipments trackingId).creator = sender →
       Flow.getCurrentStatus trackingId s = .ok a →
       a ≠ b →
       Flow._isValidStatusTransition a b = true →
       now < (s.shipments trackingId).createdAt + 3600 →
       Flow.updateShipmentStatus trackingId b sender now s =
         .error "Too early for status change") ∧
    (∀ (trackingId : String) (b : ShipmentStatus) (sender now : Nat)
       (s : Flow.State),
       (s.shipments trackingId).createdAt + 3600 ≤ now →
       Flow.updateShipmentStatus trackingId b sender now s ≠
         .error "Too early for status change") ∧
    (∀ (trackingId : String) (a b : ShipmentStatus) (sender now : Nat)
       (s : Main.State),
       (s.shipments trackingId).existsFlag = true →
       (s.shipments trackingId).creator = sender →
       Main.getCurrentStatus trackingId s = .ok a →
       a ≠ b →
       Main._isValidStatusTransition a b = true →
       now < (s.shipments trackingId).createdAt + 3600 →
       Main.updateShipmentStatus trackingId b sender now s =
         .error "Too early for status change") ∧
    (∀ (trackingId : String) (b : ShipmentStatus) (sender now : Nat)
       (s : Main.State),
       (s.shipments trackingId).createdAt + 3600 ≤ now →
       Main.updateShipmentStatus trackingId b sender now s ≠
         .error "Too early for status change") := by
  refine ⟨?_, ?_, ?_, ?_⟩
  · intro t a b sn nw s h1 h2 h3 hab h5 h6
    simp [Flow.updateShipmentStatus, h1, h2, h3, hab, h5,
      Nat.not_le_of_lt h6]
  · intro t b sn nw s h hcontra
    have := flow_update_too_soon_time hcontra
    omega
  · intro t a b sn nw s h1 h2 h3 hab h5 h6
    simp [Main.updateShipmentStatus, h1, h2, h3, hab, h5,
      Nat.not_le_of_lt h6]
  · intro t b sn nw s h hcontra
    have := main_update_too_soon_time hcontra
    omega

/-- Witness for C7: on demoFlow1 and demoMain1 (both created at time 0)
the valid Created to InTransit step at time 100 is rejected as too
early. -/
theorem C7_dwell_time_from_creation_witness :
    Flow.updateShipmentStatus "CARGO-001" ShipmentStatus.InTransit 1 100
      demoFlow1 = .error "Too early for status change" ∧
    Main.updateShipmentStatus "CARGO-001" ShipmentStatus.InTransit 1 100
      demoMain1 = .error "Too early for status change" :=
  ⟨C7_dwell_time_from_creation.1 "CARGO-001" ShipmentStatus.Created
      ShipmentStatus.InTransit 1 100 demoFlow1 (by decide) (by decide)
      (by rfl) (by decide) (by decide) (by decide),
   C7_dwell_time_from_creation.2.2.1 "CARGO-001" ShipmentStatus.Created
      ShipmentStatus.InTransit 1 100 demoMain1 (by decide) (by decide)
      (by rfl) (by decide) (by decide) (by decide)⟩

/-- C8. When a shipment already has at least one event, an append without
fresh ciphertext (the internal status-update append) stores as its
encryptedWeight the handle of the first stored event (index 0), with no
FHE import and no new capability grant (the acl is unchanged); hence
getEncryptedWeight at the new index agrees with getEncryptedWeight at
index 0. -/
theorem C8_weight_reuse_first_event :
    ∀ (trackingId location : String) (status : ShipmentStatus)
      (description : String) (sender now : Nat) (s s' : Flow.State),
      0 < (s.cargoEvents trackingId).length →
      Flow._addCargoEventInternal trackingId location status description
        sender now s = .ok s' →
      s'.acl = s.acl ∧
      Flow.getEncryptedWeight trackingId ((s.cargoEvents trackingId).length)
        s' = Flow.getEncryptedWeight trackingId 0 s' := by
  intro t l st de sn nw s s' hlen hc
  simp only [Flow._addCargoEventInternal] at hc
  split at hc
  · split at hc
    · split at hc
      · simp only [Except.ok.injEq] at hc
        subst hc
        rename_i hex hloc hdesc
        refine ⟨rfl, ?_⟩
        rcases hevs : s.cargoEvents t with _ | ⟨e, rest⟩
        · rw [hevs] at hlen
          simp at hlen
        · simp [Flow.getEncryptedWeight, hex, setKey, hevs,
            List.cons_append, List.getD_cons_succ, List.getD_cons_zero,
            getD_append_len, Nat.lt_succ_iff]
      · simp at hc
    · simp at hc
  · simp at hc

/-- Witness for C8: the internal append that turned demoFlow2 into
demoFlow3 made no capability grant and reused the index-0 weight
handle. -/
theorem C8_weight_reuse_first_event_witness :
    demoFlow3.acl = demoFlow2.acl ∧
    Flow.getEncryptedWeight "CARGO-001" 1 demoFlow3 =
      Flow.getEncryptedWeight "CARGO-001" 0 demoFlow3 :=
  C8_weight_reuse_first_event "CARGO-001" "Status Update"
    ShipmentStatus.InTransit "Status changed to InTransit" 1 5000 demoFlow2
    demoFlow3 (by decide) (by rfl)

/-- C9. In the part_002 variant, whose nonReentrant guard sets the locked
flag before checking it, reconnectWallet (the sole guarded operation)
never succeeds: for every state, caller and argument it reverts with
"Reentrant call". -/
theorem C9_inverted_guard_deadlock :
    ∀ (trackingId : String) (newWallet sender : Nat) (s : Main.State),
      Draft2.reconnectWallet trackingId newWallet sender s =
        .error "Reentrant call" := by
  intro t w sn s
  rfl

/-- C4 (divergence record). In the part_001 variant, a non-creator caller
(account 2, creator is account 1) is turned away from addCargoEvent,
updateShipmentStatus and reconnectWallet with the creator-check reverts.
But in src/contracts/SecureCargoFlow.sol, reconnectWallet checks
newWallet == msg.sender instead of the creator: the same non-creator
caller succeeds by passing their own address, and the call zeroes the
creator field instead of failing with Forbidden. -/
theorem C4_forbidden_access_divergence :
    Flow.addCargoEvent "CARGO-001" "Pier 3" ShipmentStatus.Created "Check"
      77 78 [79] 80 2 50 demoFlow1 =
      .error "Only shipment creator can add events" ∧
    Flow.updateShipmentStatus "CARGO-001" ShipmentStatus.InTransit 2 9999
      demoFlow1 = .error "Only shipment creator can update status" ∧
    Flow.reconnectWallet "CARGO-001" 3 2 demoFlow1 =
      .error "Only current creator can reconnect wallet" ∧
    (demoMain1.shipments "CARGO-001").creator = 1 ∧
    (Main.reconnectWallet "CARGO-001" 2 2 demoMain1).toOption.map
      (fun u => (u.shipments "CARGO-001").creator) = some 0 :=
  ⟨rfl, rfl, rfl, rfl, rfl⟩

/-- C5 (divergence record). The part_001 reconnectWallet validates its
argument exactly as claimed: the zero address and the caller itself are
rejected, and a successful call sets creator to the new owner leaving
every other shipment field unchanged. In src/contracts/SecureCargoFlow.sol
however, a call whose newOwner equals the caller is the success path: it
is not rejected with InvalidArgument, and it sets creator to the zero
address rather than to the supplied owner. -/
theorem C5_reconnect_argument_validation :
    Flow.reconnectWallet "CARGO-001" 0 1 demoFlow1 =
      .error "New wallet cannot be zero address" ∧
    Flow.reconnectWallet "CARGO-001" 1 1 demoFlow1 =
      .error "New wallet must be different from current" ∧
    (Flow.reconnectWallet "CARGO-001" 5 1 demoFlow1).toOption.map
      (fun u => ((u.shipments "CARGO-001").creator,
        (u.shipments "CARGO-001").trackingId,
        (u.shipments "CARGO-001").origin,
        (u.shipments "CARGO-001").destination,
        (u.shipments "CARGO-001").createdAt,
        (u.shipments "CARGO-001").estimatedDelivery,
        (u.shipments "CARGO-001").existsFlag)) =
      some (5, "CARGO-001", "Shanghai", "LA", 0, 604800, true) ∧
    (Main.reconnectWallet "CARGO-001" 1 1 demoMain1).toOption.map
      (fun u => (u.shipments "CARGO-001").creator) = some 0 :=
  ⟨rfl, rfl, rfl, rfl⟩

/-- C6 (divergence record). The part_001 and main variants enforce both
delivery-window bounds with the InvalidDeliveryWindow reverts and store
estimatedDelivery unchanged on success; the part_000 draft lacks the
one-year upper bound, so a creation 400 days out (34560000 s at time 0,
beyond the 31536000-second year) succeeds there instead of failing. -/
theorem C6_delivery_window_divergence :
    Flow.createShipment "CARGO-002" "Rotterdam" "Boston" 0 1 0 demoFlow0 =
      .error "Estimated delivery must be in the future" ∧
    Flow.createShipment "CARGO-002" "Rotterdam" "Boston" 34560000 1 0
      demoFlow0 =
      .error "Estimated delivery cannot be more than 1 year in the future" ∧
    Main.createShipment "CARGO-002" "Rotterdam" "Boston" 34560000 1 0
      demoMain0 =
      .error "Estimated delivery cannot be more than 1 year in the future" ∧
    (Flow.createShipment "CARGO-002" "Rotterdam" "Boston" 604800 1 0
      demoFlow0).toOption.map
      (fun u => (u.shipments "CARGO-002").estimatedDelivery) = some 604800 ∧
    (Draft0.createShipment "CARGO-002" "Rotterdam" "Boston" 34560000 1 0
      (Draft0.initState 9)).toOption.map
      (fun u => ((u.shipments "CARGO-002").existsFlag,
        (u.shipments "CARGO-002").estimatedDelivery)) =
      some (true, 34560000) :=
  ⟨rfl, rfl, rfl, rfl, rfl⟩

/-- A successful createShipment of the main contract keeps the locked
flag. -/
theorem main_create_locked {trackingId origin destination : String}
    {e sender now : Nat} {s s' : Main.State}
    (hc : Main.createShipment trackingId origin destination e sender now s =
      .ok s') : s'.locked = s.locked := by
  simp only [Main.createShipment] at hc
  split at hc
  · simp at hc
  · split at hc
    · simp at hc
    · split at hc
      · simp at hc
      · split at hc
        · simp at hc
        · simp only [Except.ok.injEq] at hc
          subst hc
          rfl

/-- A successful addCargoEvent of the main contract keeps the locked
flag. -/
theorem main_add_locked {trackingId location : String}
    {status : ShipmentStatus} {description : String} {sender now : Nat}
    {s s' : Main.State}
    (hc : Main.addCargoEvent trackingId location status description sender
      now s = .ok s') : s'.locked = s.locked := by
  simp only [Main.addCargoEvent] at hc
  split at hc
  · split at hc
    · split at hc
      · split at hc
        · simp only [Except.ok.injEq] at hc
          subst hc
          rfl
        · simp at hc
      · simp at hc
    · simp at hc
  · simp at hc

/-- A successful updateShipmentStatus of the main contract keeps the
locked flag. -/
theorem main_update_locked {trackingId : String}
    {newStatus : ShipmentStatus} {sender now : Nat} {s s' : Main.State}
    (hc : Main.updateShipmentStatus trackingId newStatus sender now s =
      .ok s') : s'.locked = s.locked := by
  simp only [Main.updateShipmentStatus] at hc
  split at hc
  · split at hc
    · split at hc
      · simp at hc
      · split at hc
        · split at hc
          · split at hc
            · exact main_add_locked hc
            · simp at hc
          · simp at hc
        · simp at hc
    · simp at hc
  · simp at hc

/-- createShipment of the main contract neither reads nor writes the
locked flag: on a state with the flag forced to b it behaves as on the
original state, with the flag still b afterwards. -/
theorem main_create_locked_comm (trackingId origin destination : String)
    (e sender now : Nat) (s : Main.State) (b : Bool) :
    Main.createShipment trackingId origin destination e sender now
      { s with locked := b } =
    Except.map (fun u => { u with locked := b })
      (Main.createShipment trackingId origin destination e sender now s) := by
  by_cases h1 : (s.shipments trackingId).existsFlag = true
  · simp [Main.createShipment, h1, Except.map]
  · by_cases h2 : trackingId.utf8ByteSize < MIN_TRACKING_ID_LENGTH
    · simp [Main.createShipment, h1, h2, Except.map]
    · by_cases h3 : e ≤ now
      · simp [Main.createShipment, h1, h2, h3, Except.map]
      · by_cases h4 : e > now + 365 * 86400
        · simp [Main.createShipment, h1, h2, h3, h4, Except.map]
        · simp [Main.createShipment, h1, h2, h3, h4, Except.map]

/-- addCargoEvent of the main contract neither reads nor writes the
locked flag. -/
theorem main_add_locked_comm (trackingId location : String)
    (status : ShipmentStatus) (description : String) (sender now : Nat)
    (s : Main.State) (b : Bool) :
    Main.addCargoEvent trackingId location status description sender now
      { s with locked := b } =
    Except.map (fun u => { u with locked := b })
      (Main.addCargoEvent trackingId location status description sender now
        s) := by
  by_cases h1 : (s.shipments trackingId).existsFlag = true
  · by_cases h2 : (s.shipments trackingId).creator = sender
    · by_cases h3 : location.utf8ByteSize > 0
      · by_cases h4 : description.utf8ByteSize > 0
        · simp [Main.addCargoEvent, h1, h2, h3, h4, Except.map]
        · simp [Main.addCargoEvent, h1, h2, h3, h4, Except.map]
      · simp [Main.addCargoEvent, h1, h2, h3, Except.map]
    · simp [Main.addCargoEvent, h1, h2, Except.map]
  · simp [Main.addCargoEvent, h1, Except.map]

/-- updateShipmentStatus of the main contract neither reads nor writes
the locked flag. -/
theorem main_update_locked_comm (trackingId : String)
    (newStatus : ShipmentStatus) (sender now : Nat) (s : Main.State)
    (b : Bool) :
    Main.updateShipmentStatus trackingId newStatus sender now
      { s with locked := b } =
    Except.map (fun u => { u with locked := b })
      (Main.updateShipmentStatus trackingId newStatus sender now s) := by
  have hgr : Main.getCurrentStatus trackingId { s with locked := b } =
      Main.getCurrentStatus trackingId s := rfl
  by_cases h1 : (s.shipments trackingId).existsFlag = true
  · by_cases h2 : (s.shipments trackingId).creator = sender
    · rcases hg : Main.getCurrentStatus trackingId s with m | cur
      · simp [Main.updateShipmentStatus, h1, h2, hgr, hg, Except.map]
      · by_cases h3 : cur = newStatus
        · simp [Main.updateShipmentStatus, h1, h2, hgr, hg, h3, Except.map]
        · by_cases h4 :
            Main._isValidStatusTransition cur newStatus = true
          · by_cases h5 : now ≥ (s.shipments trackingId).createdAt + 3600
            · simp only [Main.updateShipmentStatus, hgr, hg]
              simp only [h1, if_true, h2, if_pos, ne_eq, h3,
                not_false_iff, if_pos, h4, if_true]
              rw [if_pos h5, if_pos h5]
              exact main_add_locked_comm _ _ _ _ _ _ _ _
            · simp [Main.updateShipmentStatus, h1, h2, hgr, hg, h3, h4, h5,
                Except.map]
          · simp [Main.updateShipmentStatus, h1, h2, hgr, hg, h3, h4,
              Except.map]
    · simp [Main.updateShipmentStatus, h1, h2, Except.map]
  · simp [Main.updateShipmentStatus, h1, Except.map]

/-- C10. emergencyPause of the main contract succeeds for any caller and
only raises the locked flag; once the flag is up, no reachable step of
the contract ever lowers it, reconnectWallet (the one nonReentrant
function) reverts with "Reentrant call" forever, while createShipment,
addCargoEvent, updateShipmentStatus and the read functions run exactly as
they would with the flag down. -/
theorem C10_pause_permanent_lock :
    (∀ (sender : Nat) (s : Main.State),
       Main.emergencyPause sender s = .ok { s with locked := true }) ∧
    (∀ s s' : Main.State, s.locked = true → Main.Step s s' →
       s'.locked = true) ∧
    (∀ (trackingId : String) (newWallet sender : Nat) (s : Main.State),
       s.locked = true →
       Main.reconnectWallet trackingId newWallet sender s =
         .error "Reentrant call") ∧
    (∀ (trackingId origin destination : String) (e sender now : Nat)
       (s : Main.State) (b : Bool),
       Main.createShipment trackingId origin destination e sender now
         { s with locked := b } =
       Except.map (fun u => { u with locked := b })
         (Main.createShipment trackingId origin destination e sender now
           s)) ∧
    (∀ (trackingId location : String) (status : ShipmentStatus)
       (description : String) (sender now : Nat) (s : Main.State)
       (b : Bool),
       Main.addCargoEvent trackingId location status description sender now
         { s with locked := b } =
       Except.map (fun u => { u with locked := b })
         (Main.addCargoEvent trackingId location status description sender
           now s)) ∧
    (∀ (trackingId : String) (newStatus : ShipmentStatus) (sender now : Nat)
       (s : Main.State) (b : Bool),
       Main.updateShipmentStatus trackingId newStatus sender now
         { s with locked := b } =
       Except.map (fun u => { u with locked := b })
         (Main.updateShipmentStatus trackingId newStatus sender now s)) ∧
    (∀ (trackingId : String) (s : Main.State) (b : Bool),
       Main.getCurrentStatus trackingId { s with locked := b } =
         Main.getCurrentStatus trackingId s ∧
       Main.getEventCount trackingId { s with locked := b } =
         Main.getEventCount trackingId s ∧
       Main.getShipment trackingId { s with locked := b } =
         Main.getShipment trackingId s) := by
  refine ⟨fun sender s => rfl, ?_, ?_,
    main_create_locked_comm, main_add_locked_comm, main_update_locked_comm,
    fun t s b => ⟨rfl, rfl, rfl⟩⟩
  · intro s s' hl hstep
    cases hstep with
    | create t o d e sn nw s1 s2 hc => rw [main_create_locked hc]; exact hl
    | addEvent t l st de sn nw s1 s2 hc => rw [main_add_locked hc]; exact hl
    | updateStatus t ns sn nw s1 s2 hc => rw [main_update_locked hc]; exact hl
    | reconnect t w sn s1 s2 hc => simp [Main.reconnectWallet, hl] at hc
    | pause sn s1 s2 hc =>
      simp only [Main.emergencyPause, Except.ok.injEq] at hc
      subst hc
      rfl
  · intro t w sn s hl
    simp [Main.reconnectWallet, hl]

/-- Witness for C10: demoMain2 is locked by an emergencyPause; a further
createShipment (a valid Step) leaves it locked, and reconnectWallet on it
reverts with the reentrancy message. -/
theorem C10_pause_permanent_lock_witness :
    demoMain3.locked = true ∧
    Main.reconnectWallet "CARGO-001" 7 1 demoMain2 =
      .error "Reentrant call" :=
  ⟨C10_pause_permanent_lock.2.1 demoMain2 demoMain3 (by decide)
      (Main.Step.create "CARGO-003" "Busan" "Seattle" 604800 1 0 demoMain2
        demoMain3 (by rfl)),
   C10_pause_permanent_lock.2.2.1 "CARGO-001" 7 1 demoMain2 (by decide)⟩
